import Mathlib

/-!
Verification of the Socrata CKAN harvester (ckanext/socrata/plugin.py).

The development shallowly embeds the harvester: the dataset descriptor data
model, the package builder `_build_package_dict`, the gather stage
(`_request_datasets_from_socrata`, `_page_datasets`, `_make_harvest_objs`)
and the import stage (`import_stage`, `_get_existing_dataset`).  External
collaborators (the CKAN package store, the `munge` helpers, `urlparse`) are
modelled from their documented contracts, as noted on each definition.
-/

namespace Socrata

/-- The `resource` sub-object of a Socrata dataset descriptor.  Every field the
source reads with bracket access (KeyError when absent) or with `.get` is
modelled as an `Option`. -/
structure Resource where
  name : Option String
  id : Option String
  attribution : Option String
  description : Option String
  provenance : Option String

deriving instance DecidableEq, Repr for Resource

/-- The `classification` sub-object of a descriptor; `tags`, `domain_tags` and
`domain_metadata` are read with `.get` and default to empty lists.
`domain_metadata` entries are copied verbatim into extras; they are modelled
as key/value pairs. -/
structure Classification where
  tags : List String
  domain_tags : List String
  domain_metadata : List (String × String)

deriving instance DecidableEq, Repr for Classification

/-- A decoded Socrata dataset descriptor (the JSON value stored in a harvest
object content). -/
structure Descriptor where
  resource : Resource
  classification : Classification
  permalink : Option String

deriving instance DecidableEq, Repr for Descriptor

/-- Drop whitespace at both ends of a character list (Python `str.strip`). -/
def trimChars (cs : List Char) : List Char :=
  ((cs.dropWhile Char.isWhitespace).reverse.dropWhile Char.isWhitespace).reverse

/-- Models CKAN `munge_tag` (ckan.lib.munge, external to this repository):
lowercase and strip the tag, keep only alphanumerics, hyphens and spaces,
then turn spaces into hyphens (ascii substitution and length clamping of the
original are omitted as irrelevant here). -/
def mungeTag (s : String) : String :=
  let lowered := trimChars (s.toList.map Char.toLower)
  let kept := lowered.filter (fun c => c.isAlphanum || c == '-' || c == ' ')
  String.mk (kept.map (fun c => if c == ' ' then '-' else c))

/-- Models CKAN `munge_title_to_name` (ckan.lib.munge, external to this
repository): spaces, dots, colons and slashes become hyphens, every other
character outside alphanumerics, hyphen and underscore is dropped, and the
result is lowercased (length clamping omitted). -/
def mungeTitleToName (s : String) : String :=
  let replaced := s.toList.map
    (fun c => if c == ' ' || c == '.' || c == ':' || c == '/' then '-' else c)
  let kept := replaced.filter (fun c => c.isAlphanum || c == '-' || c == '_')
  String.mk (kept.map Char.toLower)

/-- Models Python `str.strip` with argument "/": drop leading and trailing
slashes (used on the harvest source url). -/
def stripSlashes (s : String) : String :=
  String.mk (((s.toList.dropWhile (· == '/')).reverse.dropWhile (· == '/')).reverse)

/-- Locate the text following the scheme separator "://". -/
def afterSchemeSep : List Char → Option (List Char)
  | [] => none
  | ':' :: '/' :: '/' :: rest => some rest
  | _ :: rest => afterSchemeSep rest

/-- Models Python `urlparse(url).hostname` (standard library, external) for
ordinary URLs: the netloc is the text following the scheme separator "://"
(or a leading "//") up to the next slash, question mark or hash; the
hostname is the netloc up to an optional ":port", lowercased; `none` when
the URL has no netloc or it is empty.  (Userinfo and bracketed IPv6 hosts
are not modelled.) -/
def urlparseHostname (url : String) : Option String :=
  let netlocStart : Option (List Char) :=
    match url.toList with
    | '/' :: '/' :: rest => some rest
    | cs => afterSchemeSep cs
  match netlocStart with
  | none => none
  | some rest =>
    let netloc := rest.takeWhile (fun c => c != '/' && c != '?' && c != '#')
    let host := netloc.takeWhile (fun c => c != ':')
    if host.isEmpty then none else some (String.mk (host.map Char.toLower))

/-- Models Python `str.format` interpolation of a value that may be `None`
(Python renders `None` as the text "None"). -/
def pyFormatArg : Option String → String
  | none => "None"
  | some s => s

/-- DOWNLOAD_ENDPOINT_TEMPLATE from the source, applied to a domain and a
resource id the way `_build_package_dict` formats it. -/
def downloadUrl (domain : Option String) (resourceId : String) : String :=
  "https://" ++ pyFormatArg domain ++ "/api/views/" ++ resourceId ++
    "/rows.csv?accessType=DOWNLOAD"

/-- One entry of the `resources` list of a package dict. -/
structure ResourceDict where
  url : String
  format : String

deriving instance DecidableEq, Repr for ResourceDict

/-- The package dict built by `_build_package_dict`.  `tags` holds the list of
munged tag names (each Python entry is a singleton dict with key name). -/
structure PackageDict where
  title : String
  name : String
  url : String
  notes : String
  author : String
  tags : List String
  extras : List (String × String)
  identifier : String
  owner_org : Option String
  harvest_source_id : String
  harvest_source_url : String
  harvest_source_title : String
  provenance : Option String
  resources : List ResourceDict

deriving instance DecidableEq, Repr for PackageDict

/-- The data the import stage reads from the harvest source: its url, id and
title, and the owner organization of the local source dataset obtained via
package_show. -/
structure SourceInfo where
  url : String
  id : String
  title : String
  localOrg : Option String

deriving instance DecidableEq, Repr for SourceInfo

/-- A KeyError raised by `_build_package_dict` when a required descriptor
field is absent. -/
inductive BuildError where
  | missingField (field : String)

deriving instance DecidableEq, Repr for BuildError

/-- Embeds `_build_package_dict`.  Required fields are read with bracket
access in source order (title/name first, then author, then identifier), so
the first absent one among `resource.name`, `resource.attribution`,
`resource.id` aborts the build with a KeyError and no incomplete dict exists.
Optional fields use `.get` defaults; provenance is included only when the
descriptor carries a truthy (non-empty) provenance value. -/
def buildPackageDict (src : SourceInfo) (res : Descriptor) :
    Except BuildError PackageDict :=
  match res.resource.name with
  | none => .error (BuildError.missingField "name")
  | some nm =>
    match res.resource.attribution with
    | none => .error (BuildError.missingField "attribution")
    | some author =>
      match res.resource.id with
      | none => .error (BuildError.missingField "id")
      | some rid =>
        .ok {
          title := nm
          name := mungeTitleToName nm
          url := res.permalink.getD ""
          notes := res.resource.description.getD ""
          author := author
          tags := (res.classification.tags ++ res.classification.domain_tags).map mungeTag
          extras := res.classification.domain_metadata
          identifier := rid
          owner_org := src.localOrg
          harvest_source_id := src.id
          harvest_source_url := stripSlashes src.url
          harvest_source_title := src.title
          provenance :=
            match res.resource.provenance with
            | some p => if p = "" then none else some p
            | none => none
          resources := [{ url := downloadUrl (urlparseHostname src.url) rid, format := "CSV" }]
        }

/-! Gather stage. -/

/-- A decoded catalog API response body, as observed by
`_request_datasets_from_socrata`: either `api_response.json()` raises
JSONDecodeError (`undecodable`), or it yields a JSON object with an optional
`error` field and a `results` array. -/
inductive ApiResponse where
  | undecodable
  | json (error : Option String) (results : List Descriptor)

deriving instance DecidableEq, Repr for ApiResponse

/-- Embeds `_request_datasets_from_socrata` applied to one decoded response:
returns the page of descriptors, or `none` after saving a gather error (the
second component is the list of gather errors saved by the call). -/
def requestDatasetsFromSocrata : ApiResponse → Option (List Descriptor) × List String
  | .undecodable => (none, ["Gather error: Invalid response"])
  | .json (some e) _ => (none, ["Gather error: " ++ e])
  | .json none results => (some results, [])

/-- Embeds `_page_datasets`: request pages at offsets 0, batch, 2*batch, ...
and concatenate them, stopping at the first page that is `None` (failed) or
empty.  `fetch` gives the decoded response at each offset; `fuel` bounds the
unrolling of the source `while True` loop, which only stops on an empty or
failing page (every theorem below supplies more fuel than pages).  Returns
the yielded descriptors and the gather errors saved along the way. -/
def pageDatasets (fetch : Nat → ApiResponse) (batch : Nat) :
    Nat → Nat → List Descriptor × List String
  | 0, _ => ([], [])
  | fuel + 1, offset =>
    match requestDatasetsFromSocrata (fetch offset) with
    | (none, errs) => ([], errs)
    | (some ds, errs) =>
      if ds.length = 0 then ([], errs)
      else
        let rest := pageDatasets fetch batch fuel (offset + batch)
        (ds ++ rest.1, errs ++ rest.2)

/-- A harvest object: guid (the dataset external identifier), the serialized
descriptor content (modelled at the parsed level; `none` embeds a Python
`None` content) and the current flag.  HarvestObject rows default to
`current = false` on creation.  Object ids are modelled as naturals. -/
structure HObj where
  id : Nat
  guid : String
  content : Option Descriptor
  current : Bool

deriving instance DecidableEq, Repr for HObj

/-- Embeds `_make_harvest_objs`: one HarvestObject per descriptor, with
`guid = d.resource.id` and the descriptor as content.  The debug log line
reads `resource.name` and then `resource.id` with bracket access, so a
missing field raises a KeyError (modelled as `.error`).  Fresh object ids
are drawn sequentially from `nextId`. -/
def makeHarvestObjs : List Descriptor → Nat → Except String (List HObj)
  | [], _ => .ok []
  | d :: ds, nextId =>
    match d.resource.name, d.resource.id with
    | none, _ => .error "KeyError: name"
    | some _, none => .error "KeyError: id"
    | some _, some rid =>
      match makeHarvestObjs ds (nextId + 1) with
      | .error e => .error e
      | .ok rest => .ok ({ id := nextId, guid := rid, content := some d, current := false } :: rest)

/-- Embeds `gather_stage`: page through the catalog with batch size 100 and
create one harvest object per yielded descriptor; the second component is
the list of gather errors saved during pagination. -/
def gatherStage (fetch : Nat → ApiResponse) (fuel : Nat) :
    Except String (List HObj) × List String :=
  let paged := pageDatasets fetch 100 fuel 0
  (makeHarvestObjs paged.1 0, paged.2)

/-! Import stage. -/

/-- A stored package record of the local store: a surrogate package id, the
package state and the stored dict (whose `name` and `identifier` fields are
what lookups filter on). -/
structure PkgRecord where
  pkgId : Nat
  state : String
  dict : PackageDict

deriving instance DecidableEq, Repr for PkgRecord

/-- The state the import stage reads and writes: the harvest object rows, the
package store, the object-level errors saved with `_save_object_error`
(object id and stage label) and the error-level log lines. -/
structure ImportState where
  harvestObjects : List HObj
  packages : List PkgRecord
  objectErrors : List (Nat × String)
  logErrors : List String

deriving instance DecidableEq, Repr for ImportState

/-- Embeds `_get_existing_dataset`: query active packages whose `identifier`
extra equals the guid; `none` when there is no match, and when there is more
than one match log an error and still return the first match (the second
component is the list of log.error lines emitted). -/
def getExistingDataset (packages : List PkgRecord) (guid : String) :
    Option PkgRecord × List String :=
  match packages.filter (fun p => p.dict.identifier == guid && p.state == "active") with
  | [] => (none, [])
  | [p] => (some p, [])
  | p :: _ :: _ =>
    (some p, ["Found more than one dataset with the same guid: " ++ guid])

/-- Modelled from the spec: CKAN `package_create` (the Repository Adapter is
an external collaborator, outside this repository).  Per the adapter
contract, create stores the submitted normalized record as a fresh active
package; its `identifier` field is what the identifier lookup indexes, and a
`name` already used by an active record is rejected (CKAN names are
unique). -/
def packageCreate (packages : List PkgRecord) (dict : PackageDict) :
    Except String (List PkgRecord) :=
  if packages.any (fun p => p.dict.name == dict.name && p.state == "active") then
    .error "ValidationError: name already in use"
  else
    .ok (packages ++ [{ pkgId := packages.length, state := "active", dict := dict }])

/-- Modelled from the spec: CKAN `package_update` (external collaborator).
CKAN resolves the target by the supplied id or, when absent — as in this
code, which passes a dict without an id — by `name`; the stored dict of the
resolved active record is replaced in place; NotFound when no active record
matches. -/
def packageUpdate (packages : List PkgRecord) (dict : PackageDict) :
    Except String (List PkgRecord) :=
  if packages.any (fun p => p.dict.name == dict.name && p.state == "active") then
    .ok (packages.map
      (fun p => if p.dict.name == dict.name && p.state == "active" then { p with dict := dict } else p))
  else
    .error "NotFound"

/-- Embeds the SQLAlchemy filter expression `HarvestObject.current is True`
from the previous-object query of `import_stage`.  In Python, `is` is an
identity comparison evaluated eagerly on the column attribute object, which
is not the object `True`; the expression is therefore the constant `False`
and the query matches no row.  (The intended filter
`HarvestObject.current == True` would be `fun o => o.current`.) -/
def currentIsTrueFilter (_ : HObj) : Bool := false

/-- The observable outcome of one `import_stage` call: the two False returns
of the validation step, an uncaught exception escaping from
`_build_package_dict`, the two caught-and-recorded adapter failures, and the
two True returns (whose paths the debug log distinguishes). -/
inductive ImportOutcome where
  | noObject
  | emptyContent
  | buildExn (e : BuildError)
  | updateError
  | createError
  | updatedExisting
  | createdNew

deriving instance DecidableEq, Repr for ImportOutcome

/-- Embeds `import_stage`, step by step in source order: validate the object
and its content; look up the previous current object for the guid (with the
constant-false filter `currentIsTrueFilter`) and unflag it when found; flag
this object current; look up an existing dataset by guid; build the package
dict (an error here escapes as an exception, after the flag writes); then
update or create, saving an object error and returning False on adapter
failure. -/
def importStage (st : ImportState) (hobj : Option HObj) (src : SourceInfo) :
    ImportState × ImportOutcome :=
  match hobj with
  | none =>
    ({ st with logErrors := st.logErrors ++ ["No harvest object received"] },
      ImportOutcome.noObject)
  | some obj =>
    match obj.content with
    | none =>
      ({ st with objectErrors := st.objectErrors ++ [(obj.id, "Import")] },
        ImportOutcome.emptyContent)
    | some res =>
      let previous :=
        st.harvestObjects.find? (fun o => o.guid == obj.guid && currentIsTrueFilter o)
      let objs1 : List HObj :=
        match previous with
        | some p => st.harvestObjects.map
            (fun o => if o.id == p.id then { o with current := false } else o)
        | none => st.harvestObjects
      let objs2 : List HObj :=
        objs1.map (fun o => if o.id == obj.id then { o with current := true } else o)
      let existingAndLog := getExistingDataset st.packages obj.guid
      let st1 : ImportState :=
        { st with harvestObjects := objs2, logErrors := st.logErrors ++ existingAndLog.2 }
      match buildPackageDict src res with
      | .error e => (st1, ImportOutcome.buildExn e)
      | .ok pd =>
        match existingAndLog.1 with
        | some _ =>
          match packageUpdate st1.packages pd with
          | .ok pkgs => ({ st1 with packages := pkgs }, ImportOutcome.updatedExisting)
          | .error _ =>
            ({ st1 with objectErrors := st1.objectErrors ++ [(obj.id, "Import")] },
              ImportOutcome.updateError)
        | none =>
          match packageCreate st1.packages pd with
          | .ok pkgs => ({ st1 with packages := pkgs }, ImportOutcome.createdNew)
          | .error _ =>
            ({ st1 with objectErrors := st1.objectErrors ++ [(obj.id, "Import")] },
              ImportOutcome.createError)

/-! Concrete sample data used by counterexamples and witnesses. -/

/-- The descriptor of the spec scenario: resource id "abc-123", name
"Test Set", attribution "Org", classification tags ["Foo"]. -/
def sampleDescriptor : Descriptor :=
  { resource :=
      { name := some "Test Set", id := some "abc-123", attribution := some "Org",
        description := none, provenance := none }
    classification := { tags := ["Foo"], domain_tags := [], domain_metadata := [] }
    permalink := none }

/-- The harvest source of the spec scenario. -/
def sampleSource : SourceInfo :=
  { url := "https://data.example.com", id := "source-1", title := "Example",
    localOrg := some "org-1" }

/-- Harvest object A for guid "abc-123". -/
def objA : HObj :=
  { id := 1, guid := "abc-123", content := some sampleDescriptor, current := false }

/-- Harvest object B, a later snapshot for the same guid with the same
content. -/
def objB : HObj :=
  { id := 2, guid := "abc-123", content := some sampleDescriptor, current := false }

/-- The store state before any import: both objects gathered, nothing else. -/
def stateStart : ImportState :=
  { harvestObjects := [objA, objB], packages := [], objectErrors := [], logErrors := [] }

/-- The state after a successful import of A. -/
def stateAfterA : ImportState := (importStage stateStart (some objA) sampleSource).1

/-- The state after the subsequent import of B for the same guid. -/
def stateAfterB : ImportState := (importStage stateAfterA (some objB) sampleSource).1

/-- A descriptor whose resource lacks the required `name` field. -/
def noNameDescriptor : Descriptor :=
  { resource :=
      { name := none, id := some "abc-123", attribution := some "Org",
        description := none, provenance := none }
    classification := { tags := [], domain_tags := [], domain_metadata := [] }
    permalink := none }

/-- A harvest object carrying the malformed descriptor. -/
def noNameObj : HObj :=
  { id := 7, guid := "abc-123", content := some noNameDescriptor, current := false }

/-- A store holding only the malformed object. -/
def noNameState : ImportState :=
  { harvestObjects := [noNameObj], packages := [], objectErrors := [], logErrors := [] }

/-- A descriptor whose classification tags and domain_tags overlap. -/
def dupTagDescriptor : Descriptor :=
  { resource :=
      { name := some "Test Set", id := some "abc-123", attribution := some "Org",
        description := none, provenance := none }
    classification := { tags := ["foo"], domain_tags := ["foo"], domain_metadata := [] }
    permalink := none }

/-- An import state with no objects and no packages. -/
def emptyImportState : ImportState :=
  { harvestObjects := [], packages := [], objectErrors := [], logErrors := [] }

/-! Theorems. -/

/-- C1: the spec claims that after a successful import of object B superseding
the previously current object A for the same guid, A.current = false and
B.current = true with at most one current object per guid.  Evaluating the
code on that exact scenario refutes it: importing A (which flags A current)
and then importing B for the same guid "abc-123" leaves BOTH objects flagged
current, because the previous-object query filters on
`HarvestObject.current is True`, a Python identity comparison that is
constantly False, so A is never found and never unflagged.  The code
contradicts its own comment (Flag previous object as not current anymore);
the claim states the intent and the code is a slip. -/
theorem import_current_flag_two_current :
    stateAfterB.harvestObjects.map (fun o => (o.id, o.current)) = [(1, true), (2, true)] := by
  decide

/-- C2 counterexample: on a descriptor lacking `resource.name`, the build
failure escapes `import_stage` as an uncaught exception (the builder call is
not wrapped in try/except), and NO object-level error is recorded against
the object — refuting the part of the claim that says the failure is
recorded against that single object. -/
theorem import_build_error_unrecorded :
    (importStage noNameState (some noNameObj) sampleSource).2
        = ImportOutcome.buildExn (BuildError.missingField "name")
      ∧ (importStage noNameState (some noNameObj) sampleSource).1.objectErrors = []
      ∧ (importStage noNameState (some noNameObj) sampleSource).1.packages = [] := by
  decide

/-- C2 amended: for every descriptor lacking a required field
(`resource.name`, `resource.attribution` or `resource.id`), the package
builder fails with a missing-field error and produces no incomplete normalized
record, and the failure propagates out of the import stage as an uncaught
exception — not swallowed, and creating or updating nothing — but it is not
recorded as an object-level error by the import stage. -/
theorem import_build_error_propagates (st : ImportState) (obj : HObj) (src : SourceInfo)
    (d : Descriptor) (hc : obj.content = some d)
    (hmiss : d.resource.name = none ∨ d.resource.attribution = none ∨ d.resource.id = none) :
    (∃ e, buildPackageDict src d = Except.error e)
      ∧ (∃ e, (importStage st (some obj) src).2 = ImportOutcome.buildExn e)
      ∧ (importStage st (some obj) src).1.packages = st.packages
      ∧ (importStage st (some obj) src).1.objectErrors = st.objectErrors := by
  have he : ∃ e, buildPackageDict src d = Except.error e := by
    rcases hn : d.resource.name with _ | nm
    · exact ⟨BuildError.missingField "name", by simp [buildPackageDict, hn]⟩
    rcases ha : d.resource.attribution with _ | a
    · exact ⟨BuildError.missingField "attribution", by simp [buildPackageDict, hn, ha]⟩
    rcases hi : d.resource.id with _ | i
    · exact ⟨BuildError.missingField "id", by simp [buildPackageDict, hn, ha, hi]⟩
    simp [hn, ha, hi] at hmiss
  obtain ⟨e, he⟩ := he
  refine ⟨⟨e, he⟩, ⟨e, ?_⟩, ?_, ?_⟩ <;> simp [importStage, hc, he]

/-- C2 amended witness at the concrete malformed descriptor. -/
theorem import_build_error_propagates_witness :
    (∃ e, buildPackageDict sampleSource noNameDescriptor = Except.error e)
      ∧ (∃ e, (importStage noNameState (some noNameObj) sampleSource).2
            = ImportOutcome.buildExn e)
      ∧ (importStage noNameState (some noNameObj) sampleSource).1.packages
          = noNameState.packages
      ∧ (importStage noNameState (some noNameObj) sampleSource).1.objectErrors
          = noNameState.objectErrors :=
  import_build_error_propagates noNameState noNameObj sampleSource noNameDescriptor rfl
    (Or.inl rfl)

/-- C8: for every valid descriptor, the built package dict contains exactly
one resource, whose URL is exactly
https://{hostname}/api/views/{id}/rows.csv?accessType=DOWNLOAD with the
hostname derived (urlparse) from the harvest source URL and the id the
external identifier of the descriptor, and whose format is "CSV". -/
theorem build_resource_url (src : SourceInfo) (d : Descriptor) (nm author rid : String)
    (hname : d.resource.name = some nm)
    (hattr : d.resource.attribution = some author)
    (hid : d.resource.id = some rid) :
    ∃ pd, buildPackageDict src d = Except.ok pd
      ∧ pd.resources =
          [{ url := "https://" ++ pyFormatArg (urlparseHostname src.url) ++ "/api/views/"
                ++ rid ++ "/rows.csv?accessType=DOWNLOAD",
             format := "CSV" }] := by
  unfold buildPackageDict
  rw [hname, hattr, hid]
  exact ⟨_, rfl, rfl⟩

/-- C8 witness: the spec scenario source and descriptor give the URL
https://data.example.com/api/views/abc-123/rows.csv?accessType=DOWNLOAD. -/
theorem build_resource_url_witness :
    ∃ pd, buildPackageDict sampleSource sampleDescriptor = Except.ok pd
      ∧ pd.resources =
          [{ url := "https://" ++ pyFormatArg (urlparseHostname sampleSource.url)
                ++ "/api/views/" ++ "abc-123" ++ "/rows.csv?accessType=DOWNLOAD",
             format := "CSV" }] :=
  build_resource_url sampleSource sampleDescriptor "Test Set" "Org" "abc-123" rfl rfl rfl

/-- C9 counterexample: the claim says the merged tag set is deduplicated, but
on a descriptor with tags ["foo"] and domain_tags ["foo"] the builder
produces the tag list ["foo", "foo"], which has a duplicate. -/
theorem build_tags_duplicate :
    ∃ pd, buildPackageDict sampleSource dupTagDescriptor = Except.ok pd
      ∧ pd.tags = ["foo", "foo"] ∧ ¬ pd.tags.Nodup := by
  refine ⟨_, rfl, by decide, by decide⟩

/-- C9 amended: for every valid descriptor, the builder merges the
classification tags and domain_tags into a single tag list — the
concatenation in order, each tag normalized by the tag-specific
slugification rule (munge_tag) — without removing duplicates. -/
theorem build_tags_merge (src : SourceInfo) (d : Descriptor) (nm author rid : String)
    (hname : d.resource.name = some nm)
    (hattr : d.resource.attribution = some author)
    (hid : d.resource.id = some rid) :
    ∃ pd, buildPackageDict src d = Except.ok pd
      ∧ pd.tags = (d.classification.tags ++ d.classification.domain_tags).map mungeTag := by
  unfold buildPackageDict
  rw [hname, hattr, hid]
  exact ⟨_, rfl, rfl⟩

/-- C9 amended witness at the overlapping-tags descriptor. -/
theorem build_tags_merge_witness :
    ∃ pd, buildPackageDict sampleSource dupTagDescriptor = Except.ok pd
      ∧ pd.tags = (dupTagDescriptor.classification.tags
            ++ dupTagDescriptor.classification.domain_tags).map mungeTag :=
  build_tags_merge sampleSource dupTagDescriptor "Test Set" "Org" "abc-123" rfl rfl rfl

/-- C7: when the harvest object is absent or its content is empty (the Python
None content the source logs as Empty content), the import stage returns
False with the failure logged (absent object) or recorded as an object-level
error (empty content), and touches neither the harvest objects (no version
bookkeeping) nor the packages (no build or reconcile). -/
theorem import_rejects_invalid (st : ImportState) (src : SourceInfo) (hobj : Option HObj)
    (h : hobj = none ∨ ∃ obj, hobj = some obj ∧ obj.content = none) :
    ((importStage st hobj src).2 = ImportOutcome.noObject
        ∨ (importStage st hobj src).2 = ImportOutcome.emptyContent)
      ∧ (importStage st hobj src).1.harvestObjects = st.harvestObjects
      ∧ (importStage st hobj src).1.packages = st.packages
      ∧ ((importStage st hobj src).1.logErrors ≠ st.logErrors
          ∨ (importStage st hobj src).1.objectErrors ≠ st.objectErrors) := by
  rcases h with h | ⟨obj, hobj1, hcontent⟩
  · subst h
    refine ⟨Or.inl rfl, rfl, rfl, Or.inl ?_⟩
    intro heq
    have := congrArg List.length heq
    simp [importStage] at this
  · subst hobj1
    refine ⟨Or.inr ?_, ?_, ?_, Or.inr ?_⟩
    · simp [importStage, hcontent]
    · simp [importStage, hcontent]
    · simp [importStage, hcontent]
    · intro heq
      have := congrArg List.length heq
      simp [importStage, hcontent] at this

/-- C7 witness: importing with no harvest object at all. -/
theorem import_rejects_invalid_witness :
    ((importStage emptyImportState none sampleSource).2 = ImportOutcome.noObject
        ∨ (importStage emptyImportState none sampleSource).2 = ImportOutcome.emptyContent)
      ∧ (importStage emptyImportState none sampleSource).1.harvestObjects
          = emptyImportState.harvestObjects
      ∧ (importStage emptyImportState none sampleSource).1.packages
          = emptyImportState.packages
      ∧ ((importStage emptyImportState none sampleSource).1.logErrors
            ≠ emptyImportState.logErrors
          ∨ (importStage emptyImportState none sampleSource).1.objectErrors
            ≠ emptyImportState.objectErrors) :=
  import_rejects_invalid emptyImportState sampleSource none (Or.inl rfl)

/-- Helper: with content present, the harvest object rows after
`import_stage` are always the input rows with the current flag of this
object set — the previous-object query matches nothing (constant-false
filter) and none of the later steps, successful or failing, writes the
rows again. -/
theorem importStage_harvestObjects (st : ImportState) (src : SourceInfo) (obj : HObj)
    (d : Descriptor) (hc : obj.content = some d) :
    (importStage st (some obj) src).1.harvestObjects =
      st.harvestObjects.map
        (fun o => if o.id == obj.id then { o with current := true } else o) := by
  have hprev : st.harvestObjects.find?
      (fun o => o.guid == obj.guid && currentIsTrueFilter o) = none := by
    simp [List.find?_eq_none, currentIsTrueFilter]
  simp only [importStage, hc, hprev]
  cases hb : buildPackageDict src d with
  | error e => simp
  | ok pd =>
    cases hex : (getExistingDataset st.packages obj.guid).1 with
    | none =>
      cases hcr : packageCreate st.packages pd with
      | ok pkgs => simp [hex, hcr]
      | error e2 => simp [hex, hcr]
    | some q =>
      cases hup : packageUpdate st.packages pd with
      | ok pkgs => simp [hex, hup]
      | error e2 => simp [hex, hup]

/-- C10: for every harvest object with non-absent, non-empty content, the
importing flags that object current before building and reconciling, and
the flag survives whatever happens later: in the resulting store the object
is flagged current whatever the outcome (including build exceptions and
create/update failures). -/
theorem import_sets_current_flag (st : ImportState) (src : SourceInfo) (obj : HObj)
    (d : Descriptor) (hmem : obj ∈ st.harvestObjects) (hc : obj.content = some d) :
    (∃ o, o ∈ (importStage st (some obj) src).1.harvestObjects
        ∧ o.id = obj.id ∧ o.current = true)
      ∧ ∀ o ∈ (importStage st (some obj) src).1.harvestObjects,
          o.id = obj.id → o.current = true := by
  rw [importStage_harvestObjects st src obj d hc]
  constructor
  · refine ⟨{ obj with current := true }, ?_, rfl, rfl⟩
    have hmm := List.mem_map_of_mem
      (f := fun o => if o.id == obj.id then { o with current := true } else o) hmem
    simpa using hmm
  · intro o ho hid
    obtain ⟨x, hx, hxo⟩ := List.mem_map.mp ho
    by_cases hxb : x.id = obj.id
    · simp [hxb] at hxo
      rw [← hxo]
    · simp [hxb] at hxo
      rw [← hxo] at hid
      exact absurd hid hxb

/-- C10 witness: a failing import (build exception for the malformed
descriptor) still leaves the object flagged current. -/
theorem import_sets_current_flag_witness :
    (∃ o, o ∈ (importStage noNameState (some noNameObj) sampleSource).1.harvestObjects
        ∧ o.id = noNameObj.id ∧ o.current = true)
      ∧ ∀ o ∈ (importStage noNameState (some noNameObj) sampleSource).1.harvestObjects,
          o.id = noNameObj.id → o.current = true :=
  import_sets_current_flag noNameState sampleSource noNameObj noNameDescriptor
    (by decide) rfl

/-- C4: importing the same harvest object content twice with no intervening
changes, starting from an empty package store, takes the create path on the
first run and the update path on the second run (the existence check finds
the record created by the first import via its identifier), and no duplicate
record is created: exactly one record remains. -/
theorem import_idempotent (src : SourceInfo) (d : Descriptor) (nm author g : String)
    (hname : d.resource.name = some nm)
    (hattr : d.resource.attribution = some author)
    (hid : d.resource.id = some g) :
    let a : HObj := { id := 1, guid := g, content := some d, current := false }
    let b : HObj := { id := 2, guid := g, content := some d, current := false }
    let st0 : ImportState :=
      { harvestObjects := [a, b], packages := [], objectErrors := [], logErrors := [] }
    let r1 := importStage st0 (some a) src
    let r2 := importStage r1.1 (some b) src
    r1.2 = ImportOutcome.createdNew
      ∧ r2.2 = ImportOutcome.updatedExisting
      ∧ r2.1.packages.length = 1 := by
  intro a b st0 r1 r2
  simp only [r2, r1, st0, a, b]
  simp [importStage, getExistingDataset, packageCreate, packageUpdate, buildPackageDict,
    currentIsTrueFilter, hname, hattr, hid]

/-- C4 witness at the spec scenario content. -/
theorem import_idempotent_witness :
    let r1 := importStage stateStart (some objA) sampleSource
    let r2 := importStage r1.1 (some objB) sampleSource
    r1.2 = ImportOutcome.createdNew
      ∧ r2.2 = ImportOutcome.updatedExisting
      ∧ r2.1.packages.length = 1 :=
  import_idempotent sampleSource sampleDescriptor "Test Set" "Org" "abc-123" rfl rfl rfl

/-- Helper: when more than one active package matches the guid, the existence
check returns the first match and logs the anomaly line. -/
theorem getExistingDataset_dup (packages : List PkgRecord) (guid : String)
    (hdup : 1 < (packages.filter
        (fun p => p.dict.identifier == guid && p.state == "active")).length) :
    ∃ p1,
      (packages.filter (fun p => p.dict.identifier == guid && p.state == "active")).head?
          = some p1
        ∧ getExistingDataset packages guid
            = (some p1, ["Found more than one dataset with the same guid: " ++ guid]) := by
  rcases hfilt : packages.filter (fun p => p.dict.identifier == guid && p.state == "active")
    with _ | ⟨p1, _ | ⟨p2, rest⟩⟩
  · rw [hfilt] at hdup
    simp at hdup
  · rw [hfilt] at hdup
    simp at hdup
  · refine ⟨p1, by rw [hfilt]; rfl, ?_⟩
    unfold getExistingDataset
    rw [hfilt]

/-- C6: when the existence check finds more than one active record whose
identifier equals the guid, the import logs the integrity-anomaly line,
proceeds on the update path using the first match as the existing dataset,
and never creates an additional record (the package count is unchanged). -/
theorem import_duplicate_guid_anomaly (st : ImportState) (src : SourceInfo) (obj : HObj)
    (d : Descriptor) (nm author rid : String)
    (hc : obj.content = some d)
    (hname : d.resource.name = some nm)
    (hattr : d.resource.attribution = some author)
    (hid : d.resource.id = some rid)
    (hdup : 1 < (st.packages.filter
        (fun p => p.dict.identifier == obj.guid && p.state == "active")).length)
    (hres : st.packages.any
        (fun p => p.dict.name == mungeTitleToName nm && p.state == "active") = true) :
    (getExistingDataset st.packages obj.guid).1
        = (st.packages.filter
            (fun p => p.dict.identifier == obj.guid && p.state == "active")).head?
      ∧ ("Found more than one dataset with the same guid: " ++ obj.guid)
          ∈ (importStage st (some obj) src).1.logErrors
      ∧ (importStage st (some obj) src).2 = ImportOutcome.updatedExisting
      ∧ (importStage st (some obj) src).1.packages.length = st.packages.length := by
  obtain ⟨p1, hhead, hged⟩ := getExistingDataset_dup st.packages obj.guid hdup
  refine ⟨by rw [hged, hhead], ?_, ?_, ?_⟩ <;>
    simp [importStage, hc, hged, buildPackageDict, hname, hattr, hid,
      packageUpdate, hres]

/-- Two stored records both carrying identifier "abc-123"; the first one has
the name the sample descriptor munges to. -/
def storedDictA : PackageDict :=
  { title := "Test Set", name := "test-set", url := "", notes := "", author := "Org",
    tags := [], extras := [], identifier := "abc-123", owner_org := some "org-1",
    harvest_source_id := "source-1", harvest_source_url := "https://data.example.com",
    harvest_source_title := "Example", provenance := none, resources := [] }

/-- A second active record with the same identifier but a different name. -/
def storedDictB : PackageDict :=
  { storedDictA with name := "other", title := "Other" }

/-- A store where two active records share the identifier "abc-123". -/
def dupGuidState : ImportState :=
  { harvestObjects := [objA],
    packages := [{ pkgId := 10, state := "active", dict := storedDictA },
                 { pkgId := 11, state := "active", dict := storedDictB }],
    objectErrors := [], logErrors := [] }

/-- C6 witness at the two-records store. -/
theorem import_duplicate_guid_anomaly_witness :
    (getExistingDataset dupGuidState.packages objA.guid).1
        = (dupGuidState.packages.filter
            (fun p => p.dict.identifier == objA.guid && p.state == "active")).head?
      ∧ ("Found more than one dataset with the same guid: " ++ objA.guid)
          ∈ (importStage dupGuidState (some objA) sampleSource).1.logErrors
      ∧ (importStage dupGuidState (some objA) sampleSource).2
          = ImportOutcome.updatedExisting
      ∧ (importStage dupGuidState (some objA) sampleSource).1.packages.length
          = dupGuidState.packages.length :=
  import_duplicate_guid_anomaly dupGuidState sampleSource objA sampleDescriptor
    "Test Set" "Org" "abc-123" rfl rfl rfl rfl (by decide) (by decide)

/-- Helper: the pager, started at any base offset against a fetch function
that returns the given non-empty pages at successive offsets (step = batch)
and then a failing or empty page, yields exactly the concatenation of the
pages and the gather errors of the stopping call. -/
theorem pageDatasets_spec (batch : Nat) (fetch : Nat → ApiResponse)
    (ps : List (List Descriptor)) :
    ∀ (base fuel : Nat),
      (∀ k, k < ps.length → fetch (base + k * batch) = ApiResponse.json none (ps.getD k [])) →
      (∀ p ∈ ps, p ≠ []) →
      ((requestDatasetsFromSocrata (fetch (base + ps.length * batch))).1 = none ∨
        (requestDatasetsFromSocrata (fetch (base + ps.length * batch))).1 = some []) →
      ps.length < fuel →
      pageDatasets fetch batch fuel base =
        (ps.flatten, (requestDatasetsFromSocrata (fetch (base + ps.length * batch))).2) := by
  induction ps with
  | nil =>
    intro base fuel hpages hne hstop hfuel
    cases fuel with
    | zero => omega
    | succ f =>
      simp only [List.length_nil, Nat.zero_mul, Nat.add_zero] at hstop ⊢
      rcases hr : requestDatasetsFromSocrata (fetch base) with ⟨o, errs⟩
      rw [hr] at hstop
      simp only [pageDatasets, hr]
      rcases hstop with h | h <;> simp only at h <;> subst h <;> simp
  | cons p ps ih =>
    intro base fuel hpages hne hstop hfuel
    cases fuel with
    | zero => omega
    | succ f =>
      have h0 := hpages 0 (by simp)
      rw [Nat.zero_mul, Nat.add_zero] at h0
      simp only [List.getD_cons_zero] at h0
      have hr : requestDatasetsFromSocrata (fetch base) = (some p, []) := by
        rw [h0]
        rfl
      have hpne : p ≠ [] := hne p (by simp)
      have hlen : ¬ p.length = 0 := by simpa using hpne
      have harith : ∀ k : Nat, base + (k + 1) * batch = base + batch + k * batch := by
        intro k
        ring
      have ih' := ih (base + batch) f ?_ ?_ ?_ ?_
      · simp only [pageDatasets, hr, if_neg hlen, ih']
        have hl : (p :: ps).length = ps.length + 1 := rfl
        rw [hl, harith ps.length]
        simp
      · intro k hk
        have hk1 := hpages (k + 1) (by simpa using Nat.succ_lt_succ hk)
        rw [harith k] at hk1
        simpa using hk1
      · intro q hq
        exact hne q (by simp [hq])
      · have hl : (p :: ps).length = ps.length + 1 := rfl
        rw [hl, harith ps.length] at hstop
        exact hstop
      · simpa using Nat.lt_of_succ_lt_succ hfuel

/-- C3: for every sequence of pages returned by the catalog client at the
successive offsets 0, batch, 2*batch, ..., the pager yields exactly the
concatenation of the pages in order — no descriptor skipped or duplicated —
and the sequence stops at the first page that is empty or signals failure. -/
theorem pager_yields_concatenation (batch : Nat) (fetch : Nat → ApiResponse)
    (ps : List (List Descriptor)) (fuel : Nat)
    (hpages : ∀ k, k < ps.length → fetch (k * batch) = ApiResponse.json none (ps.getD k []))
    (hne : ∀ p ∈ ps, p ≠ [])
    (hstop : (requestDatasetsFromSocrata (fetch (ps.length * batch))).1 = none ∨
      (requestDatasetsFromSocrata (fetch (ps.length * batch))).1 = some [])
    (hfuel : ps.length < fuel) :
    (pageDatasets fetch batch fuel 0).1 = ps.flatten := by
  have h := pageDatasets_spec batch fetch ps 0 fuel ?_ hne ?_ hfuel
  · rw [h]
  · intro k hk
    simpa using hpages k hk
  · simpa using hstop

/-- A second sample descriptor, external identifier "def-456". -/
def descB : Descriptor :=
  { sampleDescriptor with
    resource := { sampleDescriptor.resource with
      id := some "def-456", name := some "Second Set" } }

/-- A third sample descriptor, external identifier "ghi-789". -/
def descC : Descriptor :=
  { sampleDescriptor with
    resource := { sampleDescriptor.resource with
      id := some "ghi-789", name := some "Third Set" } }

/-- A catalog that serves two pages of sizes 2 and 1 at offsets 0 and 2, then
an empty page. -/
def sampleFetch : Nat → ApiResponse := fun offset =>
  if offset = 0 then ApiResponse.json none [sampleDescriptor, descB]
  else if offset = 2 then ApiResponse.json none [descC]
  else ApiResponse.json none []

/-- C3 witness: batch size 2 against the three-descriptor catalog. -/
theorem pager_yields_concatenation_witness :
    (pageDatasets sampleFetch 2 3 0).1 = [[sampleDescriptor, descB], [descC]].flatten :=
  pager_yields_concatenation 2 sampleFetch [[sampleDescriptor, descB], [descC]] 3
    (by decide) (by decide) (by decide) (by decide)

/-- Helper: when every descriptor carries the fields the gather log line and
the HarvestObject constructor read, `_make_harvest_objs` creates exactly one
object per descriptor, holding that descriptor as content. -/
theorem makeHarvestObjs_ok (ds : List Descriptor) :
    ∀ n, (∀ d ∈ ds, d.resource.name ≠ none ∧ d.resource.id ≠ none) →
      ∃ objs, makeHarvestObjs ds n = Except.ok objs
        ∧ objs.map HObj.content = ds.map some := by
  induction ds with
  | nil =>
    intro n _
    exact ⟨[], rfl, rfl⟩
  | cons d ds ih =>
    intro n h
    obtain ⟨hn, hi⟩ := h d (by simp)
    rcases hname : d.resource.name with _ | nm
    · exact absurd hname hn
    rcases hid : d.resource.id with _ | rid
    · exact absurd hid hi
    obtain ⟨objs, hobjs, hmap⟩ := ih (n + 1) (fun x hx => h x (by simp [hx]))
    refine ⟨{ id := n, guid := rid, content := some d, current := false } :: objs, ?_, ?_⟩
    · simp only [makeHarvestObjs, hname, hid, hobjs]
    · simp [hmap]

/-- C5: when a catalog page response is malformed (undecodable) or carries an
explicit error field, the gather run records a gather-level error, aborts
the remaining pagination, and returns exactly the harvest objects already
created from the earlier successful pages, which remain in the result. -/
theorem gather_aborts_on_failure (fetch : Nat → ApiResponse)
    (ps : List (List Descriptor)) (fuel : Nat)
    (hpages : ∀ k, k < ps.length → fetch (k * 100) = ApiResponse.json none (ps.getD k []))
    (hne : ∀ p ∈ ps, p ≠ [])
    (hfields : ∀ d ∈ ps.flatten, d.resource.name ≠ none ∧ d.resource.id ≠ none)
    (hfail : fetch (ps.length * 100) = ApiResponse.undecodable ∨
      ∃ e rs, fetch (ps.length * 100) = ApiResponse.json (some e) rs)
    (hfuel : ps.length < fuel) :
    (gatherStage fetch fuel).2 ≠ []
      ∧ ∃ objs, (gatherStage fetch fuel).1 = Except.ok objs
          ∧ objs.map HObj.content = ps.flatten.map some := by
  have hstop : (requestDatasetsFromSocrata (fetch (ps.length * 100))).1 = none := by
    rcases hfail with h | ⟨e, rs, h⟩ <;> rw [h] <;> rfl
  have herr : (requestDatasetsFromSocrata (fetch (ps.length * 100))).2 ≠ [] := by
    rcases hfail with h | ⟨e, rs, h⟩ <;> rw [h] <;> simp [requestDatasetsFromSocrata]
  have hpage := pageDatasets_spec 100 fetch ps 0 fuel ?_ hne ?_ hfuel
  · obtain ⟨objs, hobjs, hmap⟩ := makeHarvestObjs_ok ps.flatten 0 hfields
    refine ⟨?_, objs, ?_, hmap⟩
    · simp only [gatherStage]
      rw [hpage]
      simpa using herr
    · simp only [gatherStage]
      rw [hpage]
      exact hobjs
  · intro k hk
    simpa using hpages k hk
  · simpa using Or.inl hstop

/-- A catalog that serves one good page at offset 0 and then an error-bearing
response (the spec scenario rate-limit error). -/
def failingFetch : Nat → ApiResponse := fun offset =>
  if offset = 0 then ApiResponse.json none [sampleDescriptor, descB]
  else ApiResponse.json (some "rate limited") []

/-- C5 witness: one committed page, then a rate-limit error. -/
theorem gather_aborts_on_failure_witness :
    (gatherStage failingFetch 9).2 ≠ []
      ∧ ∃ objs, (gatherStage failingFetch 9).1 = Except.ok objs
          ∧ objs.map HObj.content = [[sampleDescriptor, descB]].flatten.map some :=
  gather_aborts_on_failure failingFetch [[sampleDescriptor, descB]] 9
    (by decide) (by decide) (by decide)
    (Or.inr ⟨"rate limited", [], by decide⟩) (by decide)

end Socrata
